import Mathlib

/-! Bangumoe front end: collection store, binding workflow and modal handlers.

A shallow embedding of `src/banggumoe/script.js`, followed by the favourite
button of the demo catalogue in `src/demo/script.js` (namespace `Demo`).

* The mock `api` object is embedded as pure functions giving the value each
  call resolves with.
* The closure variables (`currentUser`, `currentCollection`, `bangumiBinding`,
  `collections`) and the parts of the DOM the handlers read or write are the
  fields of `State`.
* Every `async` handler has one `await`.  It is embedded as the synchronous
  part up to the `await` (which records the call as pending) and the two
  continuations (the rest of the `try` block, and the `catch` block).  When a
  pending call settles, and whether it resolves or rejects, is chosen by the
  environment through the events `resolve` and `reject`; every `try`/`catch`
  around an `await` is kept, so a call may also reject although the mock never
  does.
* `Timed` adds the `setTimeout` delays of the mock: there every call resolves
  when its timer fires, and the timers fire in the order of their due times.
-/

namespace Bangumoe

/-! ## JavaScript conversions used by the handlers -/

/-- Code points that ECMAScript counts as white space or line terminator. -/
def isStrWhiteSpaceChar (c : Char) : Bool :=
  let n := c.toNat
  n == 9 || n == 10 || n == 11 || n == 12 || n == 13 || n == 32 || n == 160 ||
  n == 5760 || (8192 ≤ n && n ≤ 8202) || n == 8232 || n == 8233 || n == 8239 ||
  n == 8287 || n == 12288 || n == 65279

/-- Value of a character read as a digit (0-9, a-z, A-Z), if it is one. -/
def digitValue (c : Char) : Option Nat :=
  let n := c.toNat
  if 48 ≤ n ∧ n ≤ 57 then some (n - 48)
  else if 97 ≤ n ∧ n ≤ 122 then some (n - 87)
  else if 65 ≤ n ∧ n ≤ 90 then some (n - 55)
  else none

/-- Whether the character is a digit of the given radix. -/
def isRadixDigit (radix : Nat) (c : Char) : Bool :=
  match digitValue c with
  | some d => d < radix
  | none => false

/-- Value of a run of digits in the given radix. -/
def digitsValue (radix : Nat) (cs : List Char) : Nat :=
  cs.foldl (fun acc c => acc * radix + (digitValue c).getD 0) 0

/-- The global `parseInt(string)` with no radix argument; `none` is `NaN`.
The result is the exact integer: rounding to a double for values beyond
2^53 is outside the model, and `-0` is identified with `0`. -/
def parseInt (input : String) : Option Int :=
  let s := input.toList.dropWhile isStrWhiteSpaceChar
  let signed : Bool × List Char :=
    match s with
    | '-' :: rest => (true, rest)
    | '+' :: rest => (false, rest)
    | _ => (false, s)
  let based : Nat × List Char :=
    match signed.2 with
    | '0' :: 'x' :: rest => (16, rest)
    | '0' :: 'X' :: rest => (16, rest)
    | _ => (10, signed.2)
  let z := based.2.takeWhile (isRadixDigit based.1)
  if z.isEmpty then none
  else
    let v : Int := (digitsValue based.1 z : Nat)
    some (if signed.1 then -v else v)

/-- A JavaScript number as far as the comparisons of the script need it: `NaN`,
an infinity, or the exact decimal value `mantissa * 10 ^ exponent`. -/
inductive JSNumber where
  | nan
  | infinity (negative : Bool)
  | finite (mantissa : Int) (exponent : Int)
deriving DecidableEq, Repr

/-- Remove leading and trailing white space. -/
def trimStrWhiteSpace (cs : List Char) : List Char :=
  ((cs.dropWhile isStrWhiteSpaceChar).reverse.dropWhile isStrWhiteSpaceChar).reverse

/-- The optional exponent part of a decimal literal: `none` when malformed. -/
def parseExponentPart (cs : List Char) : Option Int :=
  match cs with
  | [] => some 0
  | c :: rest =>
    if c = 'e' ∨ c = 'E' then
      let signed : Bool × List Char :=
        match rest with
        | '-' :: r => (true, r)
        | '+' :: r => (false, r)
        | _ => (false, rest)
      if signed.2.isEmpty || !(signed.2.all (isRadixDigit 10)) then none
      else
        let v : Int := (digitsValue 10 signed.2 : Nat)
        some (if signed.1 then -v else v)
    else none

/-- An unsigned decimal literal of the string-to-number grammar. -/
def parseUnsignedDecimal (negative : Bool) (cs : List Char) : JSNumber :=
  if cs = "Infinity".toList then JSNumber.infinity negative
  else
    let intPart := cs.takeWhile (isRadixDigit 10)
    let afterInt := cs.dropWhile (isRadixDigit 10)
    let fractional : List Char × List Char :=
      match afterInt with
      | '.' :: r => (r.takeWhile (isRadixDigit 10), r.dropWhile (isRadixDigit 10))
      | _ => ([], afterInt)
    if intPart.isEmpty && fractional.1.isEmpty then JSNumber.nan
    else
      match parseExponentPart fractional.2 with
      | none => JSNumber.nan
      | some e =>
        let m : Int := (digitsValue 10 (intPart ++ fractional.1) : Nat)
        JSNumber.finite (if negative then -m else m) (e - (fractional.1.length : Int))

/-- A hexadecimal, octal or binary integer literal (`0x..`, `0o..`, `0b..`). -/
def parseNonDecimal (cs : List Char) : Option Nat :=
  match cs with
  | '0' :: p :: rest =>
    let radix : Nat :=
      if p = 'x' ∨ p = 'X' then 16
      else if p = 'o' ∨ p = 'O' then 8
      else if p = 'b' ∨ p = 'B' then 2
      else 0
    if radix = 0 || rest.isEmpty || !(rest.all (isRadixDigit radix)) then none
    else some (digitsValue radix rest)
  | _ => none

/-- The abstract operation `StringToNumber`, applied by `==` when a number is
compared with a string.  The value is exact; rounding of very long literals to
the nearest double is outside the model. -/
def stringToNumber (s : String) : JSNumber :=
  let cs := trimStrWhiteSpace s.toList
  if cs.isEmpty then JSNumber.finite 0 0
  else
    match parseNonDecimal cs with
    | some n => JSNumber.finite (n : Nat) 0
    | none =>
      match cs with
      | '-' :: rest => parseUnsignedDecimal true rest
      | '+' :: rest => parseUnsignedDecimal false rest
      | _ => parseUnsignedDecimal false cs

/-- Whether the number equals the given integer. -/
def JSNumber.eqInt : JSNumber → Int → Bool
  | JSNumber.finite m e, n =>
    if 0 ≤ e then m * 10 ^ e.toNat == n else m == n * 10 ^ (-e).toNat
  | _, _ => false

/-- The loose comparison `c.rating == rating` of a stored rating (a number, or
`null` as `none`) with the string passed as filter: `null == string` is false,
and a number is compared with the numeric value of the string. -/
def ratingLooseEq (stored : Option Nat) (rating : String) : Bool :=
  match stored with
  | none => false
  | some n => (stringToNumber rating).eqInt (n : Int)

/-! ## Data model -/

/-- The denormalised `anime` summary of a collection entry. -/
structure AnimeSummary where
  id : Nat
  title : String
  episode_count : Nat
deriving DecidableEq, Repr

/-- A collection entry as returned by `api.getCollections`. -/
structure Collection where
  id : Nat
  anime_id : Nat
  type : String
  rating : Option Nat
  comment : String
  anime : AnimeSummary
deriving DecidableEq, Repr

/-- The object literal `collectionData` built by `handleCollectionFormSubmit`.
`id = none` means the key is absent; `anime_id = none` is `NaN`; `rating` is the
field's string or `null`. -/
structure CollectionData where
  id : Option Nat
  anime_id : Option Int
  type : String
  rating : Option String
  comment : String
deriving DecidableEq, Repr

/-- The `user` object of a login or registration result. -/
structure User where
  id : Nat
  username : String
  email : Option String
deriving DecidableEq, Repr

/-- Result of `api.login` and `api.register`. -/
structure AuthResult where
  user : User
  token : String
deriving DecidableEq, Repr

/-- The binding record returned by `api.getBangumiBinding`. -/
structure BangumiBinding where
  id : Nat
  user_id : Nat
  bangumi_user_id : Nat
  token_expires_at : String
  created_at : String
  updated_at : String
deriving DecidableEq, Repr

/-- Result of `api.bindBangumiAccount`. -/
structure BindResult where
  message : String
  bangumi_user_id : Nat
  username : String
  nickname : String
deriving DecidableEq, Repr

/-- Result of `api.syncBangumiData`. -/
structure SyncResult where
  new_animes : Nat
  updated_collections : Nat
  total_collections : Nat
deriving DecidableEq, Repr

/-! ## The mock `api` object: the value each call resolves with -/

/-- The array `mockCollections` inside `api.getCollections`. -/
def mockCollections : List Collection :=
  [ { id := 1, anime_id := 101, type := "watching", rating := some 9,
      comment := "非常好看，推荐！",
      anime := { id := 101, title := "我的英雄学院", episode_count := 12 } },
    { id := 2, anime_id := 102, type := "completed", rating := some 8,
      comment := "剧情不错，但结局有点仓促",
      anime := { id := 102, title := "鬼灭之刃", episode_count := 24 } },
    { id := 3, anime_id := 103, type := "wish", rating := none,
      comment := "",
      anime := { id := 103, title := "进击的巨人 最终季", episode_count := 16 } } ]

/-- The value `api.getCollections(type, rating)` resolves with.  A string is
truthy exactly when it is non-empty. -/
def api.getCollections (type rating : String) : List Collection :=
  let filtered := mockCollections
  let filtered := if type ≠ "" then filtered.filter (fun c => c.type == type) else filtered
  let filtered :=
    if rating ≠ "" then filtered.filter (fun c => ratingLooseEq c.rating rating) else filtered
  filtered

/-- The value `api.login(username, password)` resolves with. -/
def api.login (username _password : String) : AuthResult :=
  { user := { id := 1, username := username, email := none }, token := "fake-jwt-token" }

/-- The value `api.register(username, email, password)` resolves with. -/
def api.register (username email _password : String) : AuthResult :=
  { user := { id := 1, username := username, email := some email }, token := "fake-jwt-token" }

/-- The value `api.upsertCollection(collectionData)` resolves with, `now` being
`Date.now()`.  The literal first sets `id` to `collectionData.id || Date.now()`
and then spreads `collectionData` over it, which overrides `id` when the key is
present. -/
def api.upsertCollection (collectionData : CollectionData) (now : Nat) : CollectionData :=
  let first : Nat :=
    match collectionData.id with
    | some i => if i ≠ 0 then i else now
    | none => now
  { collectionData with
    id := match collectionData.id with
      | some i => some i
      | none => some first }

/-- The value `api.deleteCollection(collectionId)` resolves with (`success`). -/
def api.deleteCollection (_collectionId : Option Int) : Bool := true

/-- The value `api.getBangumiBinding()` resolves with. -/
def api.getBangumiBinding : BangumiBinding :=
  { id := 1, user_id := 1, bangumi_user_id := 12345,
    token_expires_at := "2025-12-31 23:59:59",
    created_at := "2025-01-01 00:00:00",
    updated_at := "2025-01-01 00:00:00" }

/-- The value `api.bindBangumiAccount()` resolves with. -/
def api.bindBangumiAccount : BindResult :=
  { message := "Bangumi账户绑定成功", bangumi_user_id := 12345,
    username := "test_user", nickname := "测试用户" }

/-- The `message` of the value `api.unbindBangumiAccount()` resolves with. -/
def api.unbindBangumiAccount : String := "Bangumi账户解绑成功"

/-- The value `api.syncBangumiData()` resolves with. -/
def api.syncBangumiData : SyncResult :=
  { new_animes := 3, updated_collections := 5, total_collections := 8 }

/-! ## Application state -/

/-- A call of a method of `api` whose promise has been created. -/
inductive Call where
  | login (username password : String)
  | register (username email password : String)
  | getCollections (type rating : String)
  | upsertCollection (collectionData : CollectionData)
  | deleteCollection (collectionId : Option Int)
  | getBangumiBinding
  | bindBangumiAccount
  | unbindBangumiAccount
  | syncBangumiData
deriving DecidableEq, Repr

/-- A message element created by `showMessage`. -/
structure Message where
  text : String
  type : String
deriving DecidableEq, Repr

/-- Values of the controls of `#login-form`. -/
structure LoginForm where
  username : String
  password : String
deriving DecidableEq, Repr

/-- Values of the controls of `#register-form`. -/
structure RegisterForm where
  username : String
  email : String
  password : String
  confirmPassword : String
deriving DecidableEq, Repr

/-- Values of the controls of `#collection-form` (`#anime-id`,
`#collection-type`, `#collection-rating`, `#collection-comment`). -/
structure CollectionForm where
  animeId : String
  type : String
  rating : String
  comment : String
deriving DecidableEq, Repr

/-- What `renderBangumiBindingStatus` last wrote into the binding panel:
nothing yet, the bound view (with the unbind button) or the unbound view (with
the bind button). -/
inductive BindingView where
  | blank
  | bound (binding : BangumiBinding)
  | unbound
deriving DecidableEq, Repr

/-- Content of the `#sync-result` element. -/
inductive SyncView where
  | hidden
  | info (text : String)
  | success (result : SyncResult)
  | error (text : String)
deriving DecidableEq, Repr

/-- The facts about the HTML page that the script relies on.  The page is not
among the sources, so they are parameters: the identifiers `x` for which an
element `x-section` exists, the default values `form.reset()` restores, and the
initial values of the two filter controls. -/
structure Page where
  sections : List String
  loginForm : LoginForm
  registerForm : RegisterForm
  collectionForm : CollectionForm
  collectionTypeFilter : String
  ratingFilter : String
deriving DecidableEq, Repr

/-- The closure variables of the script, the part of the DOM it reads and
writes, and the promises of `api` calls that have not settled yet. -/
structure State where
  page : Page
  currentUser : Option User
  currentCollection : Option Collection
  bangumiBinding : Option BangumiBinding
  collections : List Collection
  activeSection : Option String
  activeNav : Option String
  activeAuthTab : Option String
  authModalOpen : Bool
  collectionModalOpen : Bool
  collectionModalTitle : String
  userStatus : String
  loginForm : LoginForm
  registerForm : RegisterForm
  collectionForm : CollectionForm
  collectionTypeFilter : String
  ratingFilter : String
  collectionsContainer : List Collection
  bindingView : BindingView
  syncResult : SyncView
  messages : List Message
  pending : List Call
  calls : List Call
deriving DecidableEq, Repr

/-! ## Utility and rendering functions -/

/-- The function `showSection`.  The second component is `false` when
`document.getElementById` finds no section element, in which case the property
access throws after every section has been deactivated. -/
def showSection (sectionId : String) (s : State) : State × Bool :=
  if sectionId ∈ s.page.sections then
    ({ s with activeSection := some sectionId, activeNav := some sectionId }, true)
  else
    ({ s with activeSection := none }, false)

/-- The function `showMessage`: `messages` lists the elements appended to the
body (their removal by the three-second timer is not tracked). -/
def showMessage (message : String) (type : String) (s : State) : State :=
  { s with messages := s.messages ++ [{ text := message, type := type }] }

/-- The function `renderCollections`: one card per entry, in order. -/
def renderCollections (collections : List Collection) (s : State) : State :=
  { s with collectionsContainer := collections }

/-- The function `renderBangumiBindingStatus`. -/
def renderBangumiBindingStatus (s : State) : State :=
  match s.bangumiBinding with
  | some b => { s with bindingView := BindingView.bound b }
  | none => { s with bindingView := BindingView.unbound }

/-- Calling a method of `api` and suspending at the `await`. -/
def await (c : Call) (s : State) : State :=
  { s with pending := s.pending ++ [c], calls := s.calls ++ [c] }

/-! ## Event handlers

For an `async` handler `h`, `h` is the part run when the event fires,
`h.resolved` the rest of the `try` block and `h.rejected` the `catch` block,
where `message` is `error.message`. -/

/-- The handler `handleLoginClick`. -/
def handleLoginClick (s : State) : State :=
  { s with authModalOpen := true }

/-- The handler `handleCloseAuthModal`. -/
def handleCloseAuthModal (s : State) : State :=
  { s with authModalOpen := false }

/-- The handler `handleTabClick`. -/
def handleTabClick (targetTab : String) (s : State) : State :=
  { s with activeAuthTab := some targetTab }

/-- The handler `handleLoginFormSubmit` up to its `await`. -/
def handleLoginFormSubmit (s : State) : State :=
  await (Call.login s.loginForm.username s.loginForm.password) s

/-- Rest of the `try` block of `handleLoginFormSubmit`. -/
def handleLoginFormSubmit.resolved (result : AuthResult) (s : State) : State :=
  let s := { s with currentUser := some result.user }
  let s := { s with userStatus := "欢迎, " ++ result.user.username }
  let s := { s with authModalOpen := false }
  let s := showMessage "登录成功" "success" s
  { s with loginForm := s.page.loginForm }

/-- The `catch` block of `handleLoginFormSubmit`. -/
def handleLoginFormSubmit.rejected (message : String) (s : State) : State :=
  showMessage ("登录失败: " ++ message) "error" s

/-- The handler `handleRegisterFormSubmit` up to its `await`. -/
def handleRegisterFormSubmit (s : State) : State :=
  if s.registerForm.password ≠ s.registerForm.confirmPassword then
    showMessage "两次输入的密码不一致" "error" s
  else
    await (Call.register s.registerForm.username s.registerForm.email s.registerForm.password) s

/-- Rest of the `try` block of `handleRegisterFormSubmit`. -/
def handleRegisterFormSubmit.resolved (result : AuthResult) (s : State) : State :=
  let s := { s with currentUser := some result.user }
  let s := { s with userStatus := "欢迎, " ++ result.user.username }
  let s := { s with authModalOpen := false }
  let s := showMessage "注册成功" "success" s
  { s with registerForm := s.page.registerForm }

/-- The `catch` block of `handleRegisterFormSubmit`. -/
def handleRegisterFormSubmit.rejected (message : String) (s : State) : State :=
  showMessage ("注册失败: " ++ message) "error" s

/-- The function `loadCollections` up to its `await`: the two filter values are
read when the call is made. -/
def loadCollections (s : State) : State :=
  await (Call.getCollections s.collectionTypeFilter s.ratingFilter) s

/-- Rest of the `try` block of `loadCollections`. -/
def loadCollections.resolved (result : List Collection) (s : State) : State :=
  let s := { s with collections := result }
  renderCollections s.collections s

/-- The `catch` block of `loadCollections`. -/
def loadCollections.rejected (message : String) (s : State) : State :=
  showMessage ("加载收藏列表失败: " ++ message) "error" s

/-- The handler `handleAddCollection`. -/
def handleAddCollection (s : State) : State :=
  { s with
    currentCollection := none
    collectionModalTitle := "添加收藏"
    collectionForm := s.page.collectionForm
    collectionModalOpen := true }

/-- The handler `handleEditCollection`, `dataId` being the `data-id` attribute
of the clicked edit button.  A number assigned to a control is stored as its
decimal string; `x || ''` is `''` for `null`, `0` and the empty string. -/
def handleEditCollection (dataId : String) (s : State) : State :=
  let collectionId := parseInt dataId
  match s.collections.find? (fun c => collectionId == some (c.id : Int)) with
  | some collection =>
    { s with
      currentCollection := some collection
      collectionModalTitle := "编辑收藏"
      collectionForm :=
        { animeId := toString collection.anime_id
          type := collection.type
          rating :=
            match collection.rating with
            | some r => if r ≠ 0 then toString r else ""
            | none => ""
          comment := collection.comment }
      collectionModalOpen := true }
  | none => s

/-- The object `collectionData` that `handleCollectionFormSubmit` builds from
the form and from `currentCollection`. -/
def collectionDataOf (s : State) : CollectionData :=
  { anime_id := parseInt s.collectionForm.animeId
    type := s.collectionForm.type
    rating := if s.collectionForm.rating ≠ "" then some s.collectionForm.rating else none
    comment := s.collectionForm.comment
    id := match s.currentCollection with
      | some c => some c.id
      | none => none }

/-- The handler `handleCollectionFormSubmit` up to its `await`. -/
def handleCollectionFormSubmit (s : State) : State :=
  await (Call.upsertCollection (collectionDataOf s)) s

/-- Rest of the `try` block of `handleCollectionFormSubmit`; the resolved value
is not used. -/
def handleCollectionFormSubmit.resolved (_result : CollectionData) (s : State) : State :=
  let s := { s with collectionModalOpen := false }
  let s := showMessage (if s.currentCollection.isSome then "收藏更新成功" else "收藏添加成功") "success" s
  loadCollections s

/-- The `catch` block of `handleCollectionFormSubmit`. -/
def handleCollectionFormSubmit.rejected (message : String) (s : State) : State :=
  showMessage ((if s.currentCollection.isSome then "更新" else "添加") ++ "收藏失败: " ++ message)
    "error" s

/-- The handler `handleDeleteCollection` up to its `await`; `confirmed` is the
answer of the `confirm` dialog. -/
def handleDeleteCollection (dataId : String) (confirmed : Bool) (s : State) : State :=
  let collectionId := parseInt dataId
  if confirmed then await (Call.deleteCollection collectionId) s else s

/-- Rest of the `try` block of `handleDeleteCollection`. -/
def handleDeleteCollection.resolved (_result : Bool) (s : State) : State :=
  let s := showMessage "收藏删除成功" "success" s
  loadCollections s

/-- The `catch` block of `handleDeleteCollection`. -/
def handleDeleteCollection.rejected (message : String) (s : State) : State :=
  showMessage ("删除收藏失败: " ++ message) "error" s

/-- The function `loadBangumiBinding` up to its `await`. -/
def loadBangumiBinding (s : State) : State :=
  await Call.getBangumiBinding s

/-- Rest of the `try` block of `loadBangumiBinding`. -/
def loadBangumiBinding.resolved (result : BangumiBinding) (s : State) : State :=
  renderBangumiBindingStatus { s with bangumiBinding := some result }

/-- The `catch` block of `loadBangumiBinding`. -/
def loadBangumiBinding.rejected (_message : String) (s : State) : State :=
  renderBangumiBindingStatus { s with bangumiBinding := none }

/-- The handler `handleBindBangumi` up to its `await`. -/
def handleBindBangumi (s : State) : State :=
  await Call.bindBangumiAccount s

/-- Rest of the `try` block of `handleBindBangumi`. -/
def handleBindBangumi.resolved (result : BindResult) (s : State) : State :=
  let s := showMessage result.message "success" s
  loadBangumiBinding s

/-- The `catch` block of `handleBindBangumi`. -/
def handleBindBangumi.rejected (message : String) (s : State) : State :=
  showMessage ("绑定失败: " ++ message) "error" s

/-- The handler `handleUnbindBangumi` up to its `await`. -/
def handleUnbindBangumi (confirmed : Bool) (s : State) : State :=
  if confirmed then await Call.unbindBangumiAccount s else s

/-- Rest of the `try` block of `handleUnbindBangumi`; `result` is the message
of the resolved value. -/
def handleUnbindBangumi.resolved (result : String) (s : State) : State :=
  let s := showMessage result "success" s
  renderBangumiBindingStatus { s with bangumiBinding := none }

/-- The `catch` block of `handleUnbindBangumi`. -/
def handleUnbindBangumi.rejected (message : String) (s : State) : State :=
  showMessage ("解绑失败: " ++ message) "error" s

/-- The handler `handleSyncBangumiData` up to its `await`. -/
def handleSyncBangumiData (s : State) : State :=
  await Call.syncBangumiData { s with syncResult := SyncView.info "正在同步数据..." }

/-- Rest of the `try` block of `handleSyncBangumiData`. -/
def handleSyncBangumiData.resolved (result : SyncResult) (s : State) : State :=
  { s with syncResult := SyncView.success result }

/-- The `catch` block of `handleSyncBangumiData`. -/
def handleSyncBangumiData.rejected (message : String) (s : State) : State :=
  { s with syncResult := SyncView.error ("❌ 数据同步失败: " ++ message) }

/-- The handler `handleNavClick`, `sectionId` being the `data-tab` attribute of
the clicked link. -/
def handleNavClick (sectionId : String) (s : State) : State :=
  let shown := showSection sectionId s
  if shown.2 then
    if sectionId = "collections" then loadCollections shown.1
    else if sectionId = "bangumi" then loadBangumiBinding shown.1
    else shown.1
  else shown.1

/-! ## Events -/

/-- What can happen next: a user action on the page, or the settling of a
pending `api` call.  `resolve i now` resolves the call at position `i` of
`pending` with the value the mock `api` gives for it (`now` is `Date.now()`);
`reject i message` rejects it with an error carrying `message`. -/
inductive Event where
  | navClick (sectionId : String)
  | loginClick
  | closeAuthModal
  | closeCollectionModal
  | tabClick (targetTab : String)
  | editLoginForm (form : LoginForm)
  | editRegisterForm (form : RegisterForm)
  | editCollectionForm (form : CollectionForm)
  | loginFormSubmit
  | registerFormSubmit
  | syncCollectionsClick
  | changeTypeFilter (value : String)
  | changeRatingFilter (value : String)
  | addCollectionClick
  | editCollectionClick (card : Nat)
  | deleteCollectionClick (card : Nat) (confirmed : Bool)
  | collectionFormSubmit
  | bindBangumiClick
  | unbindBangumiClick (confirmed : Bool)
  | syncBangumiDataClick
  | resolve (i : Nat) (now : Nat)
  | reject (i : Nat) (message : String)
deriving DecidableEq, Repr

/-- The continuation run when the given call resolves: every method of `api`
is awaited by exactly one function of the script. -/
def Call.resolved (c : Call) (now : Nat) (s : State) : State :=
  match c with
  | Call.login u p => handleLoginFormSubmit.resolved (api.login u p) s
  | Call.register u e p => handleRegisterFormSubmit.resolved (api.register u e p) s
  | Call.getCollections t r => loadCollections.resolved (api.getCollections t r) s
  | Call.upsertCollection d => handleCollectionFormSubmit.resolved (api.upsertCollection d now) s
  | Call.deleteCollection i => handleDeleteCollection.resolved (api.deleteCollection i) s
  | Call.getBangumiBinding => loadBangumiBinding.resolved api.getBangumiBinding s
  | Call.bindBangumiAccount => handleBindBangumi.resolved api.bindBangumiAccount s
  | Call.unbindBangumiAccount => handleUnbindBangumi.resolved api.unbindBangumiAccount s
  | Call.syncBangumiData => handleSyncBangumiData.resolved api.syncBangumiData s

/-- The `catch` block run when the given call rejects. -/
def Call.rejected (c : Call) (message : String) (s : State) : State :=
  match c with
  | Call.login _ _ => handleLoginFormSubmit.rejected message s
  | Call.register _ _ _ => handleRegisterFormSubmit.rejected message s
  | Call.getCollections _ _ => loadCollections.rejected message s
  | Call.upsertCollection _ => handleCollectionFormSubmit.rejected message s
  | Call.deleteCollection _ => handleDeleteCollection.rejected message s
  | Call.getBangumiBinding => loadBangumiBinding.rejected message s
  | Call.bindBangumiAccount => handleBindBangumi.rejected message s
  | Call.unbindBangumiAccount => handleUnbindBangumi.rejected message s
  | Call.syncBangumiData => handleSyncBangumiData.rejected message s

/-- One event.  A click on a button that the page does not currently show (an
edit or delete button of a card that is not rendered, the bind or unbind button
of the other binding view) and the settling of a call that is not pending
change nothing. -/
def step (s : State) (e : Event) : State :=
  match e with
  | Event.navClick sectionId => handleNavClick sectionId s
  | Event.loginClick => handleLoginClick s
  | Event.closeAuthModal => handleCloseAuthModal s
  | Event.closeCollectionModal => { s with collectionModalOpen := false }
  | Event.tabClick targetTab => handleTabClick targetTab s
  | Event.editLoginForm form => { s with loginForm := form }
  | Event.editRegisterForm form => { s with registerForm := form }
  | Event.editCollectionForm form => { s with collectionForm := form }
  | Event.loginFormSubmit => handleLoginFormSubmit s
  | Event.registerFormSubmit => handleRegisterFormSubmit s
  | Event.syncCollectionsClick => loadCollections s
  | Event.changeTypeFilter value => loadCollections { s with collectionTypeFilter := value }
  | Event.changeRatingFilter value => loadCollections { s with ratingFilter := value }
  | Event.addCollectionClick => handleAddCollection s
  | Event.editCollectionClick card =>
    match s.collectionsContainer[card]? with
    | some c => handleEditCollection (toString c.id) s
    | none => s
  | Event.deleteCollectionClick card confirmed =>
    match s.collectionsContainer[card]? with
    | some c => handleDeleteCollection (toString c.id) confirmed s
    | none => s
  | Event.collectionFormSubmit => handleCollectionFormSubmit s
  | Event.bindBangumiClick =>
    if s.bindingView = BindingView.unbound then handleBindBangumi s else s
  | Event.unbindBangumiClick confirmed =>
    match s.bindingView with
    | BindingView.bound _ => handleUnbindBangumi confirmed s
    | _ => s
  | Event.syncBangumiDataClick => handleSyncBangumiData s
  | Event.resolve i now =>
    match s.pending[i]? with
    | some c => c.resolved now { s with pending := s.pending.eraseIdx i }
    | none => s
  | Event.reject i message =>
    match s.pending[i]? with
    | some c => c.rejected message { s with pending := s.pending.eraseIdx i }
    | none => s

/-- A sequence of events, in order. -/
def run (s : State) (es : List Event) : State :=
  es.foldl step s

/-- State at the end of the `DOMContentLoaded` callback: the closure variables
as initialised, and `showSection('home')` done.  The controls hold the values
the page gives them; both modals are taken to be hidden and the binding and
sync panels to be empty, as nothing has shown or filled them yet. -/
def initialState (page : Page) : State :=
  (showSection "home"
    { page := page
      currentUser := none
      currentCollection := none
      bangumiBinding := none
      collections := []
      activeSection := none
      activeNav := none
      activeAuthTab := none
      authModalOpen := false
      collectionModalOpen := false
      collectionModalTitle := ""
      userStatus := ""
      loginForm := page.loginForm
      registerForm := page.registerForm
      collectionForm := page.collectionForm
      collectionTypeFilter := page.collectionTypeFilter
      ratingFilter := page.ratingFilter
      collectionsContainer := []
      bindingView := BindingView.blank
      syncResult := SyncView.hidden
      messages := []
      pending := []
      calls := [] }).1

/-- Modelled from the spec: the HTML page is not among the sources.  The spec
describes a tabbed view with the sections home, collections and bangumi; the
controls, the two filters included, are taken to be empty by default. -/
def specPage : Page :=
  { sections := ["home", "collections", "bangumi"]
    loginForm := { username := "", password := "" }
    registerForm := { username := "", email := "", password := "", confirmPassword := "" }
    collectionForm := { animeId := "", type := "", rating := "", comment := "" }
    collectionTypeFilter := ""
    ratingFilter := "" }

/-! ## Scenarios used below -/

/-- Set both filter controls (no event is fired). -/
def setFilter (type rating : String) (s : State) : State :=
  { s with collectionTypeFilter := type, ratingFilter := rating }

/-- The entry of `mockCollections` for anime 102. -/
def entry102 : Collection :=
  { id := 2, anime_id := 102, type := "completed", rating := some 8,
    comment := "剧情不错，但结局有点仓促",
    anime := { id := 102, title := "鬼灭之刃", episode_count := 24 } }

/-- Two clicks on the sync button with no settling in between. -/
def doubleSyncTrace : List Event :=
  [Event.syncBangumiDataClick, Event.syncBangumiDataClick]

/-- The collections view is opened and loaded, the second card is edited, the
rating field is set to 11 and the form is submitted. -/
def rating11Trace : List Event :=
  [Event.navClick "collections", Event.resolve 0 0, Event.editCollectionClick 1,
   Event.editCollectionForm { animeId := "102", type := "completed", rating := "11", comment := "" },
   Event.collectionFormSubmit]

/-- The collections view is opened and loaded without filter. -/
def loadedTrace : List Event :=
  [Event.navClick "collections", Event.resolve 0 0]

/-- After `loadedTrace`: the add dialog is opened and filled in. -/
def addFormTrace : List Event :=
  loadedTrace ++
  [Event.addCollectionClick,
   Event.editCollectionForm { animeId := "104", type := "wish", rating := "", comment := "" }]

/-- After `addFormTrace`: the form is submitted, the upsert call resolves and
the reload it triggers resolves. -/
def addSubmitTrace : List Event :=
  addFormTrace ++ [Event.collectionFormSubmit, Event.resolve 0 1700000000000, Event.resolve 0 0]

/-- The binding view is opened and the status fetch resolves (bound); the
binding is removed with confirmation and the unbind call resolves (unbound). -/
def unboundTrace : List Event :=
  [Event.navClick "bangumi", Event.resolve 0 0,
   Event.unbindBangumiClick true, Event.resolve 0 0]

/-- After `unboundTrace`: the bind button is clicked and the bind call
resolves. -/
def bindResolvedTrace : List Event :=
  unboundTrace ++ [Event.bindBangumiClick, Event.resolve 0 0]

/-- After `bindResolvedTrace`: the status fetch issued by the bind handler
rejects. -/
def bindThenFetchFailsTrace : List Event :=
  bindResolvedTrace ++ [Event.reject 0 "Network Error"]

/-- A state whose registration form has two different passwords. -/
def mismatchState : State :=
  { initialState specPage with
    authModalOpen := true
    registerForm :=
      { username := "alice", email := "alice@example.com",
        password := "secret1", confirmPassword := "secret2" } }

/-- A state whose registration form has the same password twice. -/
def matchState : State :=
  { initialState specPage with
    authModalOpen := true
    registerForm :=
      { username := "alice", email := "alice@example.com",
        password := "secret1", confirmPassword := "secret1" } }

/-- One opening request of the collection modal: the add button, or the edit
button of a card with the given `data-id`. -/
inductive Opening where
  | add
  | edit (dataId : String)
deriving DecidableEq, Repr

/-- The handler run for an opening request. -/
def openModal (s : State) (o : Opening) : State :=
  match o with
  | Opening.add => handleAddCollection s
  | Opening.edit dataId => handleEditCollection dataId s

/-- Reference definition, in the words of the claim on create and edit mode:
the entry that the modal was most recently opened on.  The requests are listed
most recent first.  An edit request for an id not in the snapshot opens nothing
and is passed over, an add request opens the modal on no entry, and with no
request at all the entry is the one from `before`. -/
def mostRecentEdit (snapshot : List Collection) (before : Option Collection) :
    List Opening → Option Collection
  | [] => before
  | Opening.add :: _ => none
  | Opening.edit dataId :: earlier =>
    match snapshot.find? (fun c => parseInt dataId == some (c.id : Int)) with
    | some c => some c
    | none => mostRecentEdit snapshot before earlier

/-- The handlers that await a remote call, with the answers of the `confirm`
dialogs fixed to yes. -/
def remoteHandlers (dataId : String) : List (State → State) :=
  [handleLoginFormSubmit, handleRegisterFormSubmit, loadCollections,
   handleCollectionFormSubmit, handleDeleteCollection dataId true,
   handleBindBangumi, handleUnbindBangumi true, handleSyncBangumiData]

/-- The second card of the loaded snapshot is edited, then an edit is requested
for an id that no entry has. -/
def openingsExample : List Opening :=
  [Opening.edit "2", Opening.edit "77"]

/-! ## The demo catalogue (`src/demo/script.js`) -/

namespace Demo

/-- An object of the array `bangumiList`. -/
structure Bangumi where
  id : Nat
  title : String
  cover : String
  isFavorited : Bool
deriving DecidableEq, Repr

/-- The array `bangumiList` as the script creates it. -/
def bangumiList : List Bangumi :=
  [ { id := 1, title := "葬送的芙莉莲",
      cover := "https://picsum.photos/seed/frieren/300/400.jpg", isFavorited := false },
    { id := 2, title := "我推的孩子",
      cover := "https://picsum.photos/seed/oshi/300/450.jpg", isFavorited := true },
    { id := 3, title := "咒术回战 第二季",
      cover := "https://picsum.photos/seed/jjk2/300/420.jpg", isFavorited := false },
    { id := 4, title := "无职转生 ~到了异世界就拿出真本事~",
      cover := "https://picsum.photos/seed/mushoku/300/440.jpg", isFavorited := false },
    { id := 5, title := "间谍过家家 第二季",
      cover := "https://picsum.photos/seed/spy2/300/400.jpg", isFavorited := true },
    { id := 6, title := "鬼灭之刃 锻刀村篇",
      cover := "https://picsum.photos/seed/katana/300/430.jpg", isFavorited := false },
    { id := 7, title := "进击的巨人 最终季",
      cover := "https://picsum.photos/seed/aot/300/410.jpg", isFavorited := true },
    { id := 8, title := "赛博朋克：边缘行者",
      cover := "https://picsum.photos/seed/cyber/300/400.jpg", isFavorited := false },
    { id := 9, title := "莉可丽丝",
      cover := "https://picsum.photos/seed/lycoris/300/450.jpg", isFavorited := false },
    { id := 10, title := "孤独摇滚！",
      cover := "https://picsum.photos/seed/bocchi/300/420.jpg", isFavorited := true },
    { id := 11, title := "电锯人",
      cover := "https://picsum.photos/seed/chainsaw/300/400.jpg", isFavorited := false },
    { id := 12, title := "辉夜大小姐想让我告白 第三季",
      cover := "https://picsum.photos/seed/kaguya3/300/440.jpg", isFavorited := false } ]

/-- The objects of `bangumiList` with their current fields, the cards that
`renderBangumiList` last put into `#waterfall-container`, and the rating
dialog. -/
structure DemoState where
  bangumiList : List Bangumi
  waterfallContainer : List Bangumi
  ratingBangumiTitle : String
  ratingModalOpen : Bool
deriving DecidableEq, Repr

/-- Where a click inside `#waterfall-container` lands: outside every card;
inside a card but in no element with a `data-id`; inside the favourite button
that carries the given `data-id`; inside the rating button that carries it. -/
inductive ClickTarget where
  | outsideCard
  | cardBody
  | favoriteBtn (dataId : String)
  | ratingBtn (dataId : String)
deriving DecidableEq, Repr

/-- The function `renderBangumiList`: one card per object, in order. -/
def renderBangumiList (s : DemoState) : DemoState :=
  { s with waterfallContainer := s.bangumiList }

/-- The assignment `bangumi.isFavorited = !bangumi.isFavorited` on the object
returned by `bangumiList.find(b => b.id === id)`, which is the first object of
the array with that id; `none` when `find` returns `undefined`, where reading
the property throws. -/
def toggleFound (id : Option Int) : List Bangumi → Option (List Bangumi)
  | [] => none
  | b :: rest =>
    if id == some (b.id : Int) then some ({ b with isFavorited := !b.isFavorited } :: rest)
    else (toggleFound id rest).map (fun changed => b :: changed)

/-- The click listener of `#waterfall-container`; `none` when it throws, which
happens before anything is changed.  The cards carry no `data-id` themselves,
so the id is read from the closest element that has one. -/
def waterfallClick (target : ClickTarget) (s : DemoState) : Option DemoState :=
  match target with
  | ClickTarget.outsideCard => some s
  | ClickTarget.cardBody => none
  | ClickTarget.favoriteBtn dataId =>
    match toggleFound (parseInt dataId) s.bangumiList with
    | some changed => some (renderBangumiList { s with bangumiList := changed })
    | none => none
  | ClickTarget.ratingBtn dataId =>
    match s.bangumiList.find? (fun b => parseInt dataId == some (b.id : Int)) with
    | some bangumi => some { s with ratingBangumiTitle := bangumi.title, ratingModalOpen := true }
    | none => none

/-- State at the end of the `DOMContentLoaded` callback of the demo: the list
as created and rendered once; the rating dialog is taken to be hidden. -/
def initialState : DemoState :=
  renderBangumiList
    { bangumiList := bangumiList
      waterfallContainer := []
      ratingBangumiTitle := ""
      ratingModalOpen := false }

/-- The object with its `isFavorited` negated when its id is the given one. -/
def negateIfId (id : Nat) (b : Bangumi) : Bangumi :=
  if b.id = id then { b with isFavorited := !b.isFavorited } else b

end Demo

/-! ## The timers of the mock `api`

Every method of the mock resolves inside a `setTimeout` callback and never
rejects.  `Timed` adds the clock and the due time of every pending call to the
state, so that calls settle when, and in the order in which, their timers
fire. -/

/-- Delay in milliseconds of the `setTimeout` inside each method of `api`. -/
def Call.delay : Call → Nat
  | Call.login _ _ => 500
  | Call.register _ _ _ => 500
  | Call.getCollections _ _ => 300
  | Call.upsertCollection _ => 300
  | Call.deleteCollection _ => 300
  | Call.getBangumiBinding => 300
  | Call.bindBangumiAccount => 500
  | Call.unbindBangumiAccount => 300
  | Call.syncBangumiData => 1000

/-- Whether the event is an action of the user, as opposed to the settling of
a call. -/
def Event.isUser : Event → Bool
  | Event.resolve _ _ => false
  | Event.reject _ _ => false
  | _ => true

/-- The user actions whose listener is `loadCollections` itself: a click on the
sync button of the collections view, and a change of either filter. -/
def Event.isLoad : Event → Bool
  | Event.syncCollectionsClick => true
  | Event.changeTypeFilter _ => true
  | Event.changeRatingFilter _ => true
  | _ => false

/-- The state together with the time in milliseconds and, for every pending
call in the same order, the time at which its timer is due. -/
structure Timed where
  state : State
  clock : Nat
  due : List Nat
deriving DecidableEq, Repr

/-- A state with nothing due, at the given time. -/
def Timed.start (s : State) (clock : Nat) : Timed :=
  { state := s, clock := clock, due := [] }

/-- The smallest due time, if any timer is set. -/
def minDue : List Nat → Option Nat
  | [] => none
  | d :: rest =>
    match minDue rest with
    | none => some d
    | some m => some (if d ≤ m then d else m)

/-- A user action at the given time.  It is possible only when the time has
not passed yet and no timer is due before it (such a timer has fired first).
The calls it makes get their timers set at that time. -/
def Timed.act (t : Timed) (time : Nat) (e : Event) : Option Timed :=
  if e.isUser && decide (t.clock ≤ time) && t.due.all (fun d => decide (time ≤ d)) then
    some
      { state := step t.state e
        clock := time
        due := t.due ++
          ((step t.state e).pending.drop t.state.pending.length).map
            (fun c => time + c.delay) }
  else none

/-- The next timer fires: the one with the smallest due time, and among equal
due times the one set first.  Its call resolves with the value of the mock,
`Date.now()` being the time of firing, and the calls made by the continuation
get their timers set at that time.  Impossible when no timer is set. -/
def Timed.fire (t : Timed) : Option Timed :=
  match minDue t.due with
  | none => none
  | some d =>
    some
      { state := step t.state (Event.resolve (t.due.indexOf d) (max t.clock d))
        clock := max t.clock d
        due := t.due.eraseIdx (t.due.indexOf d) ++
          ((step t.state (Event.resolve (t.due.indexOf d) (max t.clock d))).pending.drop
              (t.state.pending.length - 1)).map
            (fun c => max t.clock d + c.delay) }

/-- A step of a timed run: a user action at a given time, or the firing of the
next timer. -/
inductive TimedEvent where
  | act (time : Nat) (e : Event)
  | fire
deriving DecidableEq, Repr

/-- One step of a timed run; `none` when the step is impossible. -/
def Timed.step (t : Timed) (e : TimedEvent) : Option Timed :=
  match e with
  | TimedEvent.act time e => t.act time e
  | TimedEvent.fire => t.fire

/-- A timed run; `none` when one of its steps is impossible. -/
def runTimed : Timed → List TimedEvent → Option Timed
  | t, [] => some t
  | t, e :: es => (t.step e).bind (fun next => runTimed next es)

/-! # Theorems -/

/-! ## Shared lemmas -/

theorem eraseIdx_concat_length {α : Type} (l : List α) (a : α) :
    (l ++ [a]).eraseIdx l.length = l := by
  induction l with
  | nil => rfl
  | cons x xs ih => simp [List.eraseIdx, ih]

theorem step_resolve_await (c : Call) (s : State) (now : Nat) :
    step (await c s) (Event.resolve s.pending.length now)
      = c.resolved now { s with calls := s.calls ++ [c] } := by
  simp [step, await, eraseIdx_concat_length]

theorem step_reject_await (c : Call) (s : State) (message : String) :
    step (await c s) (Event.reject s.pending.length message)
      = c.rejected message { s with calls := s.calls ++ [c] } := by
  simp [step, await, eraseIdx_concat_length]

theorem step_resolve_getCollections (s : State) (i now : Nat) (t r : String)
    (h : s.pending[i]? = some (Call.getCollections t r)) :
    step s (Event.resolve i now)
      = { s with
          pending := s.pending.eraseIdx i
          collections := api.getCollections t r
          collectionsContainer := api.getCollections t r } := by
  simp [step, h, Call.resolved, loadCollections.resolved, renderCollections]

theorem mem_getCollections (t r : String) (c : Collection) (hc : c ∈ api.getCollections t r) :
    (t ≠ "" → c.type = t) ∧
    (r ≠ "" → ∃ n : Nat, c.rating = some n ∧ (stringToNumber r).eqInt (n : Int) = true) := by
  unfold api.getCollections at hc
  constructor
  · intro ht
    by_cases hr : r = "" <;> simp [ht, hr, List.mem_filter] at hc <;> simp [hc]
  · intro hr
    have h2 : ratingLooseEq c.rating r = true := by
      by_cases ht : t = "" <;> simp [ht, hr, List.mem_filter] at hc <;> simp [hc]
    unfold ratingLooseEq at h2
    cases hcr : c.rating with
    | none => simp [hcr] at h2
    | some n => exact ⟨n, rfl, by simpa [hcr] using h2⟩

/-! ## C1: the filter of `api.getCollections` -/

/-- C1: every entry that `api.getCollections(t, r)` resolves with has `type`
equal to `t` when `t` is non-empty, and a numeric `rating` loosely equal to `r`
when `r` is non-empty.  `loadCollections` calls it with the two filter values,
and a fetch called with `(t, r)` that resolves stores exactly that result in
`collections`, so every stored snapshot has the same property. -/
theorem getCollections_entries_match_filter (t r : String) (s : State) (i now : Nat)
    (hp : s.pending[i]? = some (Call.getCollections t r)) :
    (∀ c ∈ api.getCollections t r,
      (t ≠ "" → c.type = t) ∧
      (r ≠ "" → ∃ n : Nat, c.rating = some n ∧ (stringToNumber r).eqInt (n : Int) = true)) ∧
    (loadCollections s).pending
      = s.pending ++ [Call.getCollections s.collectionTypeFilter s.ratingFilter] ∧
    (step s (Event.resolve i now)).collections = api.getCollections t r ∧
    (∀ c ∈ (step s (Event.resolve i now)).collections,
      (t ≠ "" → c.type = t) ∧
      (r ≠ "" → ∃ n : Nat, c.rating = some n ∧ (stringToNumber r).eqInt (n : Int) = true)) := by
  have hstore : (step s (Event.resolve i now)).collections = api.getCollections t r := by
    simp [step, hp, Call.resolved, loadCollections.resolved, renderCollections]
  refine ⟨fun c hc => mem_getCollections t r c hc, rfl, hstore, ?_⟩
  intro c hc
  rw [hstore] at hc
  exact mem_getCollections t r c hc

/-- Witness for C1: a load issued with the filter `completed` / `8`. -/
theorem getCollections_entries_match_filter_witness :
    (loadCollections (setFilter "completed" "8" (initialState specPage))).pending[0]?
        = some (Call.getCollections "completed" "8") ∧
    (step (loadCollections (setFilter "completed" "8" (initialState specPage)))
        (Event.resolve 0 0)).collections = api.getCollections "completed" "8" :=
  ⟨by decide,
   (getCollections_entries_match_filter "completed" "8"
      (loadCollections (setFilter "completed" "8" (initialState specPage))) 0 0
      (by decide)).2.2.1⟩

/-! ## C2: the three-entry scenario -/

/-- C2: the mock data set holds the entries for anime 101 (watching, rating 9),
102 (completed, rating 8) and 103 (wish, no rating), in this order; without a
filter all three are returned in that order; the filter `type = completed`
gives exactly the entry for 102, the filter `rating = 8` gives exactly the
entry for 102, and `type = wish` with `rating = 5` gives the empty list. -/
theorem getCollections_initial_scenario :
    mockCollections.map (fun c => (c.anime_id, c.type, c.rating))
      = [(101, "watching", some 9), (102, "completed", some 8), (103, "wish", none)] ∧
    api.getCollections "" "" = mockCollections ∧
    api.getCollections "completed" "" = [entry102] ∧
    api.getCollections "" "8" = [entry102] ∧
    api.getCollections "wish" "5" = [] := by
  decide

/-! ## C3: two overlapping loads -/


theorem step_isLoad (s : State) (e : Event) (h : e.isLoad = true) :
    e.isUser = true ∧
    (step s e).pending
      = s.pending ++ [Call.getCollections (step s e).collectionTypeFilter (step s e).ratingFilter] := by
  cases e <;> simp [Event.isLoad] at h <;> exact ⟨rfl, rfl⟩

theorem act_of_isLoad (s : State) (clock time : Nat) (due : List Nat) (e : Event)
    (h : e.isLoad = true) (hc : clock ≤ time) (hd : ∀ d ∈ due, time ≤ d) :
    Timed.act { state := s, clock := clock, due := due } time e
      = some { state := step s e, clock := time, due := due ++ [time + 300] } := by
  obtain ⟨hu, hp⟩ := step_isLoad s e h
  have hall : due.all (fun d => decide (time ≤ d)) = true := by
    simpa [List.all_eq_true] using hd
  simp [Timed.act, hu, hc, hall, hp, Call.delay]

theorem minDue_mem (due : List Nat) (m : Nat) (h : minDue due = some m) : m ∈ due := by
  induction due generalizing m with
  | nil => simp [minDue] at h
  | cons d rest ih =>
    simp only [minDue] at h
    cases hr : minDue rest with
    | none =>
      simp [hr] at h
      simp [h]
    | some k =>
      simp only [hr, Option.some.injEq] at h
      by_cases hdk : d ≤ k
      · simp [hdk] at h
        simp [h]
      · simp [hdk] at h
        subst h
        exact List.mem_cons_of_mem _ (ih k hr)

theorem minDue_cons_of_le (d : Nat) (rest : List Nat) (h : ∀ x ∈ rest, d ≤ x) :
    minDue (d :: rest) = some d := by
  simp only [minDue]
  cases hr : minDue rest with
  | none => rfl
  | some k => simp [h k (minDue_mem rest k hr)]

theorem fire_head (s : State) (clock d : Nat) (later : List Nat) (t r : String)
    (rest : List Call)
    (hp : s.pending = Call.getCollections t r :: rest) (hc : clock ≤ d)
    (hd : ∀ x ∈ later, d ≤ x) :
    Timed.fire { state := s, clock := clock, due := d :: later }
      = some
          { state :=
              { s with
                pending := rest
                collections := api.getCollections t r
                collectionsContainer := api.getCollections t r }
            clock := d
            due := later } := by
  have hmax : max clock d = d := Nat.max_eq_right hc
  have h0 : s.pending[0]? = some (Call.getCollections t r) := by rw [hp]; simp
  simp [Timed.fire, minDue_cons_of_le d later hd, hmax,
    step_resolve_getCollections s 0 d t r h0, hp]

/-- C3: with the timers of the mock, every `api.getCollections` call resolves
300 ms after it was made, so of two loads the one issued first settles first
and a run in which A's fetch resolves after B's does not exist.  Starting with
nothing pending, when a load A is issued at time `tA` and a load B at time `tB`
before A's fetch has resolved, the timers are due at `tA + 300` and `tB + 300`;
the first to fire stores A's result and leaves B's fetch pending, the second
stores B's result: the snapshot finally stored and rendered is B's result. -/
theorem supersession_under_mock_timers (s : State) (eA eB : Event) (t0 tA tB : Nat)
    (hs : s.pending = []) (hA : eA.isLoad = true) (hB : eB.isLoad = true)
    (h0 : t0 ≤ tA) (hAB : tA ≤ tB) (hBA : tB ≤ tA + 300) :
    (runTimed (Timed.start s t0)
        [TimedEvent.act tA eA, TimedEvent.act tB eB]).map (fun t => (t.state.pending, t.due))
      = some ([Call.getCollections (step s eA).collectionTypeFilter (step s eA).ratingFilter,
               Call.getCollections (step (step s eA) eB).collectionTypeFilter
                 (step (step s eA) eB).ratingFilter],
              [tA + 300, tB + 300]) ∧
    (runTimed (Timed.start s t0)
        [TimedEvent.act tA eA, TimedEvent.act tB eB, TimedEvent.fire]).map
        (fun t => (t.state.collections, t.state.pending))
      = some (api.getCollections (step s eA).collectionTypeFilter (step s eA).ratingFilter,
              [Call.getCollections (step (step s eA) eB).collectionTypeFilter
                (step (step s eA) eB).ratingFilter]) ∧
    (runTimed (Timed.start s t0)
        [TimedEvent.act tA eA, TimedEvent.act tB eB, TimedEvent.fire, TimedEvent.fire]).map
        (fun t => (t.state.collections, t.state.collectionsContainer, t.state.pending))
      = some (api.getCollections (step (step s eA) eB).collectionTypeFilter
                (step (step s eA) eB).ratingFilter,
              api.getCollections (step (step s eA) eB).collectionTypeFilter
                (step (step s eA) eB).ratingFilter,
              []) := by
  have pA := (step_isLoad s eA hA).2
  have pB := (step_isLoad (step s eA) eB hB).2
  rw [hs, List.nil_append] at pA
  rw [pA, List.singleton_append] at pB
  have e1 := act_of_isLoad s t0 tA [] eA hA h0 (by simp)
  have e2 := act_of_isLoad (step s eA) tA tB [tA + 300] eB hB hAB (by simpa using hBA)
  have e3 := fire_head (step (step s eA) eB) tB (tA + 300) [tB + 300] _ _ _ pB hBA
    (by simp; omega)
  have e4 := fire_head
    { step (step s eA) eB with
      pending := [Call.getCollections (step (step s eA) eB).collectionTypeFilter
        (step (step s eA) eB).ratingFilter]
      collections := api.getCollections (step s eA).collectionTypeFilter (step s eA).ratingFilter
      collectionsContainer :=
        api.getCollections (step s eA).collectionTypeFilter (step s eA).ratingFilter }
    (tA + 300) (tB + 300) [] _ _ [] rfl (by omega) (by simp)
  simp only [List.nil_append, List.singleton_append] at e1 e2
  refine ⟨?_, ?_, ?_⟩
  · simp only [runTimed, Timed.step, Timed.start, e1, e2, Option.some_bind, Option.map_some', pB]
  · simp only [runTimed, Timed.step, Timed.start, e1, e2, e3, Option.some_bind,
      Option.map_some']
  · simp only [runTimed, Timed.step, Timed.start, e1, e2, e3, e4, Option.some_bind,
      Option.map_some']

/-- Witness for C3: the type filter is set to `completed` at time 0 and to
`wish` at time 100; the final snapshot is the result for `wish`. -/
theorem supersession_under_mock_timers_witness :
    ((initialState specPage).pending = [] ∧
      (Event.changeTypeFilter "completed").isLoad = true ∧
      (Event.changeTypeFilter "wish").isLoad = true ∧
      0 ≤ 0 ∧ 0 ≤ 100 ∧ 100 ≤ 0 + 300) ∧
    (runTimed (Timed.start (initialState specPage) 0)
        [TimedEvent.act 0 (Event.changeTypeFilter "completed"),
         TimedEvent.act 100 (Event.changeTypeFilter "wish"),
         TimedEvent.fire, TimedEvent.fire]).map
        (fun t => (t.state.collections, t.state.collectionsContainer, t.state.pending))
      = some (api.getCollections "wish" "", api.getCollections "wish" "", []) :=
  ⟨⟨by decide, by decide, by decide, by decide, by decide, by decide⟩,
   (supersession_under_mock_timers (initialState specPage)
      (Event.changeTypeFilter "completed") (Event.changeTypeFilter "wish") 0 0 100
      (by decide) (by decide) (by decide) (by decide) (by decide) (by decide)).2.2⟩

/-! ## C4: two sync requests -/

/-- C4, counterexample: after two clicks on the sync button, the second while
the first call is still pending, `api.syncBangumiData` has been called twice. -/
theorem sync_single_flight_counterexample :
    (run (initialState specPage) [Event.syncBangumiDataClick]).pending
        = [Call.syncBangumiData] ∧
    (run (initialState specPage) doubleSyncTrace).calls
        = [Call.syncBangumiData, Call.syncBangumiData] ∧
    (run (initialState specPage) doubleSyncTrace).calls.count Call.syncBangumiData = 2 ∧
    (run (initialState specPage) doubleSyncTrace).pending
        = [Call.syncBangumiData, Call.syncBangumiData] := by
  decide

/-- C4, amended: `handleSyncBangumiData` has no in-flight guard.  Every
invocation calls `api.syncBangumiData` exactly once, whatever is pending, so
two invocations back-to-back make exactly two remote calls, both pending. -/
theorem handleSyncBangumiData_calls_every_time (s : State) :
    (handleSyncBangumiData s).calls = s.calls ++ [Call.syncBangumiData] ∧
    (handleSyncBangumiData (handleSyncBangumiData s)).calls
      = s.calls ++ [Call.syncBangumiData, Call.syncBangumiData] ∧
    (handleSyncBangumiData (handleSyncBangumiData s)).pending
      = s.pending ++ [Call.syncBangumiData, Call.syncBangumiData] := by
  simp [handleSyncBangumiData, await]

/-! ## C5: submitting the collection form -/

/-- C5, counterexample: the form is submitted with rating 11;
`api.upsertCollection` is called with that rating, and once the call resolves
the modal is closed. -/
theorem rating11_counterexample :
    (run (initialState specPage) rating11Trace).calls
        = [Call.getCollections "" "",
           Call.upsertCollection
             { id := some 2, anime_id := some 102, type := "completed",
               rating := some "11", comment := "" }] ∧
    (run (initialState specPage) rating11Trace).collectionModalOpen = true ∧
    (step (run (initialState specPage) rating11Trace) (Event.resolve 0 0)).collectionModalOpen
        = false := by
  decide

/-- C5, amended: `handleCollectionFormSubmit` validates nothing.  For every
content of the form it calls `api.upsertCollection` exactly once, with the
entered type and the entered rating (`null` for an empty field), and when the
call resolves the modal is closed. -/
theorem handleCollectionFormSubmit_always_calls (s : State) (now : Nat) :
    (handleCollectionFormSubmit s).calls
      = s.calls ++ [Call.upsertCollection (collectionDataOf s)] ∧
    (collectionDataOf s).type = s.collectionForm.type ∧
    (collectionDataOf s).rating
      = (if s.collectionForm.rating ≠ "" then some s.collectionForm.rating else none) ∧
    (step (handleCollectionFormSubmit s) (Event.resolve s.pending.length now)).collectionModalOpen
      = false := by
  refine ⟨rfl, rfl, rfl, ?_⟩
  unfold handleCollectionFormSubmit
  rw [step_resolve_await]
  rfl

/-! ## C6: submitting the form and reloading -/

theorem step_resolve_loadCollections (s : State) (now : Nat) :
    step (loadCollections s) (Event.resolve s.pending.length now)
      = { s with
          calls := s.calls ++ [Call.getCollections s.collectionTypeFilter s.ratingFilter]
          collections := api.getCollections s.collectionTypeFilter s.ratingFilter
          collectionsContainer := api.getCollections s.collectionTypeFilter s.ratingFilter } := by
  unfold loadCollections
  rw [step_resolve_await]
  rfl

theorem step_resolve_handleCollectionFormSubmit (s : State) (now : Nat) :
    step (handleCollectionFormSubmit s) (Event.resolve s.pending.length now)
      = loadCollections
          (showMessage (if s.currentCollection.isSome then "收藏更新成功" else "收藏添加成功")
            "success"
            { s with
              calls := s.calls ++ [Call.upsertCollection (collectionDataOf s)]
              collectionModalOpen := false }) := by
  unfold handleCollectionFormSubmit
  rw [step_resolve_await]
  rfl

theorem step_resolve_handleDeleteCollection (s : State) (dataId : String) (now : Nat) :
    step (handleDeleteCollection dataId true s) (Event.resolve s.pending.length now)
      = loadCollections
          (showMessage "收藏删除成功" "success"
            { s with calls := s.calls ++ [Call.deleteCollection (parseInt dataId)] }) := by
  unfold handleDeleteCollection
  simp only [if_true]
  rw [step_resolve_await]
  rfl

/-- C6, counterexample: the snapshot holds three entries; an entry without id
is submitted through the add dialog, the upsert call resolves and the reload
under the unchanged filter resolves; the snapshot still holds three entries. -/
theorem add_submit_counterexample :
    (run (initialState specPage) addFormTrace).collections.length = 3 ∧
    (collectionDataOf (run (initialState specPage) addFormTrace)).id = none ∧
    (run (initialState specPage) addSubmitTrace).messages
        = [{ text := "收藏添加成功", type := "success" }] ∧
    (run (initialState specPage) addSubmitTrace).pending = [] ∧
    (run (initialState specPage) addSubmitTrace).collections.length = 3 ∧
    (run (initialState specPage) addSubmitTrace).collections.length
        ≠ (run (initialState specPage) addFormTrace).collections.length + 1 := by
  decide

/-- C6, amended: for a snapshot loaded under the current filter, a successful
form submission followed by the reload it triggers (filter unchanged) stores
the same snapshot again, whether or not the submitted entry carries an id: the
length is unchanged and every entry keeps its position.  The mock `api` keeps
no submitted entry, so a submission without id adds nothing. -/
theorem submit_reload_keeps_snapshot (s : State) (now₁ now₂ : Nat)
    (h : s.collections = api.getCollections s.collectionTypeFilter s.ratingFilter) :
    (step (step (handleCollectionFormSubmit s) (Event.resolve s.pending.length now₁))
        (Event.resolve s.pending.length now₂)).collections = s.collections ∧
    (step (step (handleCollectionFormSubmit s) (Event.resolve s.pending.length now₁))
        (Event.resolve s.pending.length now₂)).collections.length = s.collections.length ∧
    (∀ i : Nat,
      (step (step (handleCollectionFormSubmit s) (Event.resolve s.pending.length now₁))
        (Event.resolve s.pending.length now₂)).collections[i]? = s.collections[i]?) := by
  have e : (step (step (handleCollectionFormSubmit s) (Event.resolve s.pending.length now₁))
        (Event.resolve s.pending.length now₂)).collections = s.collections := by
    rw [step_resolve_handleCollectionFormSubmit]
    have e2 := step_resolve_loadCollections
      (showMessage (if s.currentCollection.isSome then "收藏更新成功" else "收藏添加成功")
        "success"
        { s with
          calls := s.calls ++ [Call.upsertCollection (collectionDataOf s)]
          collectionModalOpen := false }) now₂
    rw [show (showMessage (if s.currentCollection.isSome then "收藏更新成功" else "收藏添加成功")
        "success"
        { s with
          calls := s.calls ++ [Call.upsertCollection (collectionDataOf s)]
          collectionModalOpen := false }).pending.length = s.pending.length from rfl] at e2
    rw [e2, h]
    rfl
  exact ⟨e, by rw [e], fun i => by rw [e]⟩

/-- Witness for C6: the add dialog filled in on the loaded snapshot. -/
theorem submit_reload_keeps_snapshot_witness :
    (run (initialState specPage) addFormTrace).collections
        = api.getCollections (run (initialState specPage) addFormTrace).collectionTypeFilter
            (run (initialState specPage) addFormTrace).ratingFilter ∧
    (step (step (handleCollectionFormSubmit (run (initialState specPage) addFormTrace))
        (Event.resolve (run (initialState specPage) addFormTrace).pending.length 5))
        (Event.resolve (run (initialState specPage) addFormTrace).pending.length 7)).collections
      = (run (initialState specPage) addFormTrace).collections :=
  ⟨by decide,
   (submit_reload_keeps_snapshot (run (initialState specPage) addFormTrace) 5 7 (by decide)).1⟩

/-! ## C7: deleting and reloading -/

/-- C7: for a snapshot loaded under the current filter, a confirmed invocation
of `handleDeleteCollection` calls `api.deleteCollection` with the parsed id;
when the call resolves and the reload it triggers (filter unchanged) resolves,
the length of `collections` has decreased by at most one and every entry whose
id differs from the argument is still there (the stored snapshot is in fact
the same).  Without confirmation the state, and with it the list of calls and
the snapshot, is unchanged. -/
theorem handleDeleteCollection_reload (s : State) (dataId : String) (now₁ now₂ : Nat)
    (h : s.collections = api.getCollections s.collectionTypeFilter s.ratingFilter) :
    (handleDeleteCollection dataId true s).calls
      = s.calls ++ [Call.deleteCollection (parseInt dataId)] ∧
    s.collections.length
      ≤ (step (step (handleDeleteCollection dataId true s) (Event.resolve s.pending.length now₁))
          (Event.resolve s.pending.length now₂)).collections.length + 1 ∧
    (∀ c ∈ s.collections, some (c.id : Int) ≠ parseInt dataId →
      c ∈ (step (step (handleDeleteCollection dataId true s)
              (Event.resolve s.pending.length now₁))
            (Event.resolve s.pending.length now₂)).collections) ∧
    (step (step (handleDeleteCollection dataId true s) (Event.resolve s.pending.length now₁))
        (Event.resolve s.pending.length now₂)).collections = s.collections ∧
    handleDeleteCollection dataId false s = s := by
  have e : (step (step (handleDeleteCollection dataId true s)
        (Event.resolve s.pending.length now₁))
        (Event.resolve s.pending.length now₂)).collections = s.collections := by
    rw [step_resolve_handleDeleteCollection]
    have e2 := step_resolve_loadCollections
      (showMessage "收藏删除成功" "success"
        { s with calls := s.calls ++ [Call.deleteCollection (parseInt dataId)] }) now₂
    rw [show (showMessage "收藏删除成功" "success"
        { s with calls := s.calls ++ [Call.deleteCollection (parseInt dataId)] }).pending.length
        = s.pending.length from rfl] at e2
    rw [e2, h]
    rfl
  refine ⟨rfl, ?_, ?_, e, rfl⟩
  · rw [e]
    exact Nat.le_succ _
  · intro c hc _
    rw [e]
    exact hc

/-- Witness for C7: deleting the second card of the loaded snapshot. -/
theorem handleDeleteCollection_reload_witness :
    (run (initialState specPage) loadedTrace).collections
        = api.getCollections (run (initialState specPage) loadedTrace).collectionTypeFilter
            (run (initialState specPage) loadedTrace).ratingFilter ∧
    (step (step (handleDeleteCollection "2" true (run (initialState specPage) loadedTrace))
        (Event.resolve (run (initialState specPage) loadedTrace).pending.length 5))
        (Event.resolve (run (initialState specPage) loadedTrace).pending.length 7)).collections
      = (run (initialState specPage) loadedTrace).collections :=
  ⟨by decide,
   (handleDeleteCollection_reload (run (initialState specPage) loadedTrace) "2" 5 7
      (by decide)).2.2.2.1⟩

/-! ## C8: the status fetch -/

/-- C8: whatever `bangumiBinding` holds, when a pending `api.getBangumiBinding`
call rejects, `loadBangumiBinding` sets `bangumiBinding` to `null`, renders the
unbound view and shows no message; when it resolves, `bangumiBinding` is
replaced by the returned binding and the bound view is rendered. -/
theorem loadBangumiBinding_fail_open (s : State) (i now : Nat) (message : String)
    (hp : s.pending[i]? = some Call.getBangumiBinding) :
    (loadBangumiBinding s).pending = s.pending ++ [Call.getBangumiBinding] ∧
    (step s (Event.reject i message)).bangumiBinding = none ∧
    (step s (Event.reject i message)).bindingView = BindingView.unbound ∧
    (step s (Event.reject i message)).messages = s.messages ∧
    (step s (Event.resolve i now)).bangumiBinding = some api.getBangumiBinding ∧
    (step s (Event.resolve i now)).bindingView = BindingView.bound api.getBangumiBinding ∧
    (step s (Event.resolve i now)).messages = s.messages := by
  simp [step, hp, Call.resolved, Call.rejected, loadBangumiBinding, await,
    loadBangumiBinding.resolved, loadBangumiBinding.rejected, renderBangumiBindingStatus]

/-- Witness for C8: the status fetch issued when the binding view is opened. -/
theorem loadBangumiBinding_fail_open_witness :
    (run (initialState specPage) [Event.navClick "bangumi"]).pending[0]?
        = some Call.getBangumiBinding ∧
    (step (run (initialState specPage) [Event.navClick "bangumi"])
        (Event.reject 0 "Network Error")).bangumiBinding = none :=
  ⟨by decide,
   (loadBangumiBinding_fail_open (run (initialState specPage) [Event.navClick "bangumi"]) 0 0
      "Network Error" (by decide)).2.1⟩

/-! ## C9: the registration form -/

/-- C9: when the password and the confirmation differ, `handleRegisterFormSubmit`
calls nothing (`calls` and `pending` are unchanged), leaves `currentUser` and the
auth modal as they are and shows the mismatch message; when they are equal it
calls `api.register` exactly once, with the entered username, email and
password. -/
theorem handleRegisterFormSubmit_password_check (s : State) :
    (s.registerForm.password ≠ s.registerForm.confirmPassword →
      (handleRegisterFormSubmit s).calls = s.calls ∧
      (handleRegisterFormSubmit s).pending = s.pending ∧
      (handleRegisterFormSubmit s).currentUser = s.currentUser ∧
      (handleRegisterFormSubmit s).authModalOpen = s.authModalOpen ∧
      (handleRegisterFormSubmit s).messages
        = s.messages ++ [{ text := "两次输入的密码不一致", type := "error" }]) ∧
    (s.registerForm.password = s.registerForm.confirmPassword →
      (handleRegisterFormSubmit s).calls
        = s.calls ++ [Call.register s.registerForm.username s.registerForm.email
            s.registerForm.password] ∧
      (handleRegisterFormSubmit s).pending
        = s.pending ++ [Call.register s.registerForm.username s.registerForm.email
            s.registerForm.password]) := by
  constructor
  · intro hne
    simp [handleRegisterFormSubmit, hne, showMessage]
  · intro heq
    simp [handleRegisterFormSubmit, heq, await]

/-- Witness for C9: a form with two different passwords, and one with the same
password twice. -/
theorem handleRegisterFormSubmit_password_check_witness :
    (mismatchState.registerForm.password ≠ mismatchState.registerForm.confirmPassword ∧
      (handleRegisterFormSubmit mismatchState).calls = mismatchState.calls ∧
      (handleRegisterFormSubmit mismatchState).authModalOpen = true) ∧
    (matchState.registerForm.password = matchState.registerForm.confirmPassword ∧
      (handleRegisterFormSubmit matchState).calls
        = [Call.register "alice" "alice@example.com" "secret1"]) :=
  ⟨⟨by decide,
    ((handleRegisterFormSubmit_password_check mismatchState).1 (by decide)).1,
    ((handleRegisterFormSubmit_password_check mismatchState).1 (by decide)).2.2.2.1⟩,
   ⟨by decide, ((handleRegisterFormSubmit_password_check matchState).2 (by decide)).1⟩⟩

/-! ## C10: binding the account -/

/-- C10, counterexample: from the unbound view the bind button is clicked and
`api.bindBangumiAccount` resolves.  `handleBindBangumi` is then finished, having
shown the success message and started a status fetch, and `bangumiBinding` is
still `null`; when that fetch rejects, nothing is pending any more and the
state is unbound. -/
theorem bind_counterexample :
    (run (initialState specPage) unboundTrace).bangumiBinding = none ∧
    (run (initialState specPage) unboundTrace).bindingView = BindingView.unbound ∧
    (run (initialState specPage) bindResolvedTrace).calls.count Call.bindBangumiAccount = 1 ∧
    (run (initialState specPage) bindResolvedTrace).messages.getLast?
        = some { text := "Bangumi账户绑定成功", type := "success" } ∧
    (run (initialState specPage) bindResolvedTrace).pending = [Call.getBangumiBinding] ∧
    (run (initialState specPage) bindResolvedTrace).bangumiBinding = none ∧
    (run (initialState specPage) bindThenFetchFailsTrace).pending = [] ∧
    (run (initialState specPage) bindThenFetchFailsTrace).bangumiBinding = none ∧
    (run (initialState specPage) bindThenFetchFailsTrace).bindingView = BindingView.unbound := by
  decide

/-- C10, amended: starting from `bangumiBinding = null`, when
`api.bindBangumiAccount` resolves, `handleBindBangumi` shows the returned message
and calls `loadBangumiBinding`, `bangumiBinding` still being `null`; the state is
bound, with the binding returned by `api.getBangumiBinding` stored and rendered,
once that status fetch resolves.  When `api.bindBangumiAccount` rejects, the
state stays unbound, nothing more is called and an error message is shown. -/
theorem handleBindBangumi_transitions (s : State) (now₁ now₂ : Nat) (message : String)
    (h : s.bangumiBinding = none) :
    (handleBindBangumi s).calls = s.calls ++ [Call.bindBangumiAccount] ∧
    (step (handleBindBangumi s) (Event.resolve s.pending.length now₁)).bangumiBinding = none ∧
    (step (handleBindBangumi s) (Event.resolve s.pending.length now₁)).messages
      = s.messages ++ [{ text := api.bindBangumiAccount.message, type := "success" }] ∧
    (step (handleBindBangumi s) (Event.resolve s.pending.length now₁)).pending
      = s.pending ++ [Call.getBangumiBinding] ∧
    (step (step (handleBindBangumi s) (Event.resolve s.pending.length now₁))
        (Event.resolve s.pending.length now₂)).bangumiBinding = some api.getBangumiBinding ∧
    (step (step (handleBindBangumi s) (Event.resolve s.pending.length now₁))
        (Event.resolve s.pending.length now₂)).bindingView
      = BindingView.bound api.getBangumiBinding ∧
    (step (handleBindBangumi s) (Event.reject s.pending.length message)).bangumiBinding = none ∧
    (step (handleBindBangumi s) (Event.reject s.pending.length message)).bindingView
      = s.bindingView ∧
    (step (handleBindBangumi s) (Event.reject s.pending.length message)).pending = s.pending ∧
    (step (handleBindBangumi s) (Event.reject s.pending.length message)).messages
      = s.messages ++ [{ text := "绑定失败: " ++ message, type := "error" }] := by
  have e1 : step (handleBindBangumi s) (Event.resolve s.pending.length now₁)
      = loadBangumiBinding
          (showMessage api.bindBangumiAccount.message "success"
            { s with calls := s.calls ++ [Call.bindBangumiAccount] }) := by
    unfold handleBindBangumi
    rw [step_resolve_await]
    rfl
  have e2 : step (handleBindBangumi s) (Event.reject s.pending.length message)
      = showMessage ("绑定失败: " ++ message) "error"
          { s with calls := s.calls ++ [Call.bindBangumiAccount] } := by
    unfold handleBindBangumi
    rw [step_reject_await]
    rfl
  have e3 := step_resolve_await Call.getBangumiBinding
    (showMessage api.bindBangumiAccount.message "success"
      { s with calls := s.calls ++ [Call.bindBangumiAccount] }) now₂
  rw [show (showMessage api.bindBangumiAccount.message "success"
      { s with calls := s.calls ++ [Call.bindBangumiAccount] }).pending.length
      = s.pending.length from rfl] at e3
  refine ⟨rfl, ?_, ?_, ?_, ?_, ?_, ?_, ?_, ?_, ?_⟩
  · rw [e1]; exact h
  · rw [e1]; rfl
  · rw [e1]; rfl
  · rw [e1]; unfold loadBangumiBinding; rw [e3]; rfl
  · rw [e1]; unfold loadBangumiBinding; rw [e3]; rfl
  · rw [e2]; exact h
  · rw [e2]; rfl
  · rw [e2]; rfl
  · rw [e2]; rfl

/-- Witness for C10: the unbound state reached by unbinding. -/
theorem handleBindBangumi_transitions_witness :
    (run (initialState specPage) unboundTrace).bangumiBinding = none ∧
    (step (step (handleBindBangumi (run (initialState specPage) unboundTrace))
        (Event.resolve (run (initialState specPage) unboundTrace).pending.length 0))
        (Event.resolve (run (initialState specPage) unboundTrace).pending.length 0)).bangumiBinding
      = some api.getBangumiBinding :=
  ⟨by decide,
   (handleBindBangumi_transitions (run (initialState specPage) unboundTrace) 0 0 ""
      (by decide)).2.2.2.2.1⟩

/-! ## C11: the value `api.upsertCollection` resolves with -/

/-- C11: the entry `api.upsertCollection` resolves with always has an id: the
id of the input when the input has one, `Date.now()` otherwise; the fields
`anime_id`, `type`, `rating` and `comment` are those of the input. -/
theorem upsertCollection_result_has_id (collectionData : CollectionData) (now : Nat) :
    (api.upsertCollection collectionData now).id ≠ none ∧
    (api.upsertCollection collectionData now).id
      = some (match collectionData.id with
          | some i => i
          | none => now) ∧
    (∀ i : Nat, collectionData.id = some i →
      (api.upsertCollection collectionData now).id = some i) ∧
    (api.upsertCollection collectionData now).anime_id = collectionData.anime_id ∧
    (api.upsertCollection collectionData now).type = collectionData.type ∧
    (api.upsertCollection collectionData now).rating = collectionData.rating ∧
    (api.upsertCollection collectionData now).comment = collectionData.comment := by
  cases h : collectionData.id <;> simp [api.upsertCollection, h]

/-- Witness for C11: an input with id 0, the falsy id that the spread restores. -/
theorem upsertCollection_result_has_id_witness :
    (api.upsertCollection
        { id := some 0, anime_id := some 101, type := "wish", rating := none, comment := "" }
        1700000000000).id = some 0 :=
  (upsertCollection_result_has_id
      { id := some 0, anime_id := some 101, type := "wish", rating := none, comment := "" }
      1700000000000).2.2.1 0 rfl

/-! ## C12: a remote call that fails -/

/-- C12: when a pending call other than the binding status fetch rejects, the
`catch` block leaves `collections`, `currentUser`, `bangumiBinding` (and
`currentCollection`) as they are, calls nothing more, and surfaces the error:
as an error message ending in `error.message`, or, for the sync call, as the
error text of the sync panel.  The part of each handler that runs before its
remote call leaves the three variables unchanged too. -/
theorem service_failure_leaves_state (s : State) (i : Nat) (c : Call) (message dataId : String)
    (hp : s.pending[i]? = some c) (hc : c ≠ Call.getBangumiBinding) :
    (step s (Event.reject i message)).collections = s.collections ∧
    (step s (Event.reject i message)).currentUser = s.currentUser ∧
    (step s (Event.reject i message)).bangumiBinding = s.bangumiBinding ∧
    (step s (Event.reject i message)).currentCollection = s.currentCollection ∧
    (step s (Event.reject i message)).calls = s.calls ∧
    (step s (Event.reject i message)).pending = s.pending.eraseIdx i ∧
    ((c ≠ Call.syncBangumiData ∧
        ∃ text : String, (step s (Event.reject i message)).messages
          = s.messages ++ [{ text := text ++ message, type := "error" }]) ∨
      (c = Call.syncBangumiData ∧
        (step s (Event.reject i message)).syncResult
          = SyncView.error ("❌ 数据同步失败: " ++ message))) ∧
    (∀ h ∈ remoteHandlers dataId,
      (h s).collections = s.collections ∧ (h s).currentUser = s.currentUser ∧
      (h s).bangumiBinding = s.bangumiBinding) := by
  have hstep : step s (Event.reject i message)
      = c.rejected message { s with pending := s.pending.eraseIdx i } := by
    simp [step, hp]
  rw [hstep]
  refine ⟨?_, ?_, ?_, ?_, ?_, ?_, ?_, ?_⟩
  · cases c <;> first | exact absurd rfl hc | rfl
  · cases c <;> first | exact absurd rfl hc | rfl
  · cases c <;> first | exact absurd rfl hc | rfl
  · cases c <;> first | exact absurd rfl hc | rfl
  · cases c <;> first | exact absurd rfl hc | rfl
  · cases c <;> first | exact absurd rfl hc | rfl
  · cases c with
    | login u p => exact Or.inl ⟨by simp, "登录失败: ", rfl⟩
    | register u e p => exact Or.inl ⟨by simp, "注册失败: ", rfl⟩
    | getCollections t r => exact Or.inl ⟨by simp, "加载收藏列表失败: ", rfl⟩
    | upsertCollection d =>
      exact Or.inl ⟨by simp,
        (if s.currentCollection.isSome then "更新" else "添加") ++ "收藏失败: ", rfl⟩
    | deleteCollection d => exact Or.inl ⟨by simp, "删除收藏失败: ", rfl⟩
    | getBangumiBinding => exact absurd rfl hc
    | bindBangumiAccount => exact Or.inl ⟨by simp, "绑定失败: ", rfl⟩
    | unbindBangumiAccount => exact Or.inl ⟨by simp, "解绑失败: ", rfl⟩
    | syncBangumiData => exact Or.inr ⟨rfl, rfl⟩
  · intro h hh
    simp only [remoteHandlers, List.mem_cons, List.mem_singleton, List.mem_nil_iff,
      or_false] at hh
    rcases hh with rfl | rfl | rfl | rfl | rfl | rfl | rfl | rfl
    · exact ⟨rfl, rfl, rfl⟩
    · unfold handleRegisterFormSubmit
      split <;> exact ⟨rfl, rfl, rfl⟩
    · exact ⟨rfl, rfl, rfl⟩
    · exact ⟨rfl, rfl, rfl⟩
    · exact ⟨rfl, rfl, rfl⟩
    · exact ⟨rfl, rfl, rfl⟩
    · exact ⟨rfl, rfl, rfl⟩
    · exact ⟨rfl, rfl, rfl⟩

/-- Witness for C12: the edit form is submitted on the loaded snapshot and the
upsert call rejects. -/
theorem service_failure_leaves_state_witness :
    ((run (initialState specPage) rating11Trace).pending[0]?
        = some (Call.upsertCollection
            { id := some 2, anime_id := some 102, type := "completed",
              rating := some "11", comment := "" }) ∧
      Call.upsertCollection
          { id := some 2, anime_id := some 102, type := "completed",
            rating := some "11", comment := "" } ≠ Call.getBangumiBinding) ∧
    (step (run (initialState specPage) rating11Trace) (Event.reject 0 "HTTP 500")).collections
      = (run (initialState specPage) rating11Trace).collections :=
  ⟨⟨by decide, by decide⟩,
   (service_failure_leaves_state (run (initialState specPage) rating11Trace) 0
      (Call.upsertCollection
        { id := some 2, anime_id := some 102, type := "completed",
          rating := some "11", comment := "" })
      "HTTP 500" "2" (by decide) (by decide)).1⟩

/-! ## C13: navigation -/

/-- C13: for a section identifier whose section element exists, `handleNavClick`
calls exactly `loadCollections` (one `api.getCollections` call with the current
filter) when the identifier is `collections`, exactly `loadBangumiBinding` (one
`api.getBangumiBinding` call) when it is `bangumi`, and nothing otherwise; a
second activation of the same section makes the same call once more. -/
theorem handleNavClick_dispatch (s : State) (sectionId : String)
    (h : sectionId ∈ s.page.sections) :
    (handleNavClick sectionId s).activeSection = some sectionId ∧
    (handleNavClick sectionId s).calls
      = s.calls ++
          (if sectionId = "collections" then
              [Call.getCollections s.collectionTypeFilter s.ratingFilter]
            else if sectionId = "bangumi" then [Call.getBangumiBinding]
            else []) ∧
    (handleNavClick sectionId s).pending
      = s.pending ++
          (if sectionId = "collections" then
              [Call.getCollections s.collectionTypeFilter s.ratingFilter]
            else if sectionId = "bangumi" then [Call.getBangumiBinding]
            else []) ∧
    (handleNavClick sectionId (handleNavClick sectionId s)).calls
      = s.calls ++
          (if sectionId = "collections" then
              [Call.getCollections s.collectionTypeFilter s.ratingFilter,
               Call.getCollections s.collectionTypeFilter s.ratingFilter]
            else if sectionId = "bangumi" then [Call.getBangumiBinding, Call.getBangumiBinding]
            else []) := by
  by_cases hc : sectionId = "collections"
  · subst hc
    simp [handleNavClick, showSection, h, loadCollections, await]
  · by_cases hb : sectionId = "bangumi"
    · subst hb
      simp [handleNavClick, showSection, h, loadBangumiBinding, await]
    · simp [handleNavClick, showSection, h, hc, hb]

/-- Witness for C13: the collections section of the page. -/
theorem handleNavClick_dispatch_witness :
    "collections" ∈ (initialState specPage).page.sections ∧
    (handleNavClick "collections" (initialState specPage)).calls
      = [Call.getCollections "" ""] :=
  ⟨by decide,
   (handleNavClick_dispatch (initialState specPage) "collections" (by decide)).2.1⟩

/-! ## C14: create and edit mode -/

theorem openModal_collections (s : State) (o : Opening) :
    (openModal s o).collections = s.collections := by
  cases o with
  | add => rfl
  | edit dataId =>
    simp only [openModal, handleEditCollection]
    split <;> rfl

theorem openModal_currentCollection (s : State) (o : Opening) :
    (openModal s o).currentCollection = mostRecentEdit s.collections s.currentCollection [o] := by
  cases o with
  | add => rfl
  | edit dataId =>
    simp only [openModal, handleEditCollection, mostRecentEdit]
    split <;> rename_i hfind <;> simp [hfind]

theorem mostRecentEdit_append_singleton (snapshot : List Collection) (before : Option Collection)
    (recent : List Opening) (o : Opening) :
    mostRecentEdit snapshot before (recent ++ [o])
      = mostRecentEdit snapshot (mostRecentEdit snapshot before [o]) recent := by
  induction recent with
  | nil => rfl
  | cons r rest ih =>
    cases r with
    | add => rfl
    | edit dataId =>
      simp only [List.cons_append, mostRecentEdit]
      split
      · rfl
      · exact ih

theorem foldl_openModal_currentCollection (os : List Opening) (s : State) :
    (os.foldl openModal s).currentCollection
      = mostRecentEdit s.collections s.currentCollection os.reverse := by
  induction os generalizing s with
  | nil => rfl
  | cons o rest ih =>
    rw [List.foldl_cons, ih, List.reverse_cons, mostRecentEdit_append_singleton,
      openModal_collections, openModal_currentCollection]

theorem step_currentCollection (s : State) (e : Event)
    (hadd : e ≠ Event.addCollectionClick) (hedit : ∀ card, e ≠ Event.editCollectionClick card) :
    (step s e).currentCollection = s.currentCollection := by
  cases e with
  | addCollectionClick => exact absurd rfl hadd
  | editCollectionClick card => exact absurd rfl (hedit card)
  | navClick sectionId =>
    simp only [step, handleNavClick, showSection]
    by_cases h : sectionId ∈ s.page.sections
    · simp only [h, if_true]
      split
      · rfl
      · split <;> rfl
    · simp [h]
  | registerFormSubmit =>
    simp only [step, handleRegisterFormSubmit]
    split <;> rfl
  | deleteCollectionClick card confirmed =>
    simp only [step, handleDeleteCollection]
    split
    · split <;> rfl
    · rfl
  | bindBangumiClick =>
    simp only [step]
    split <;> rfl
  | unbindBangumiClick confirmed =>
    simp only [step, handleUnbindBangumi]
    split
    · split <;> rfl
    · rfl
  | resolve i now =>
    simp only [step]
    split
    · rename_i c _
      cases c <;> rfl
    · rfl
  | reject i message =>
    simp only [step]
    split
    · rename_i c _
      cases c <;> rfl
    · rfl
  | _ => rfl

/-- C14: the payload passed to `api.upsertCollection` is built from
`currentCollection`, which only the two opening handlers assign.  After any
sequence of opening requests the payload has an id exactly when the modal was
most recently opened by an edit request on an entry found in the snapshot, and
the id is that entry's id; after `handleAddCollection` the payload has no id;
`handleEditCollection` on an entry found in the snapshot opens the modal and
gives the payload that entry's id; an edit request for an id not in the
snapshot changes nothing at all; and no other event changes
`currentCollection`. -/
theorem submission_mode (s : State) (os : List Opening) (dataId : String) (e : Event) :
    (handleCollectionFormSubmit s).calls
      = s.calls ++ [Call.upsertCollection (collectionDataOf s)] ∧
    (collectionDataOf (os.foldl openModal s)).id
      = (mostRecentEdit s.collections s.currentCollection os.reverse).map (fun c => c.id) ∧
    ((collectionDataOf (os.foldl openModal s)).id.isSome
      ↔ (mostRecentEdit s.collections s.currentCollection os.reverse).isSome) ∧
    (collectionDataOf (handleAddCollection s)).id = none ∧
    (handleAddCollection s).collectionModalOpen = true ∧
    (∀ c : Collection,
      s.collections.find? (fun c => parseInt dataId == some (c.id : Int)) = some c →
      c ∈ s.collections ∧ parseInt dataId = some (c.id : Int) ∧
      (collectionDataOf (handleEditCollection dataId s)).id = some c.id ∧
      (handleEditCollection dataId s).collectionModalOpen = true) ∧
    (s.collections.find? (fun c => parseInt dataId == some (c.id : Int)) = none →
      handleEditCollection dataId s = s) ∧
    (e ≠ Event.addCollectionClick → (∀ card, e ≠ Event.editCollectionClick card) →
      (step s e).currentCollection = s.currentCollection) := by
  have hid : (collectionDataOf (os.foldl openModal s)).id
      = (mostRecentEdit s.collections s.currentCollection os.reverse).map (fun c => c.id) := by
    rw [← foldl_openModal_currentCollection]
    unfold collectionDataOf
    cases (os.foldl openModal s).currentCollection <;> rfl
  refine ⟨rfl, hid, ?_, rfl, rfl, ?_, ?_, step_currentCollection s e⟩
  · rw [hid]
    cases mostRecentEdit s.collections s.currentCollection os.reverse <;> simp
  · intro c hc
    refine ⟨List.mem_of_find?_eq_some hc, ?_, ?_, ?_⟩
    · have := List.find?_some hc
      simpa using this
    · simp [handleEditCollection, hc, collectionDataOf]
    · simp [handleEditCollection, hc]
  · intro hnone
    simp [handleEditCollection, hnone]

/-- Witness for C14: on the loaded snapshot the second card is edited and then
an edit is requested for an id that no entry has; the payload carries id 2. -/
theorem submission_mode_witness :
    (collectionDataOf
        (openingsExample.foldl openModal (run (initialState specPage) loadedTrace))).id
      = some 2 ∧
    (collectionDataOf
        ((openingsExample ++ [Opening.add]).foldl openModal
          (run (initialState specPage) loadedTrace))).id = none :=
  ⟨((submission_mode (run (initialState specPage) loadedTrace) openingsExample "2"
        Event.loginClick).2.1).trans (by decide),
   ((submission_mode (run (initialState specPage) loadedTrace)
        (openingsExample ++ [Opening.add]) "2" Event.loginClick).2.1).trans (by decide)⟩

/-! ## C15: the favourite button of the demo catalogue -/

namespace Demo

theorem parseInt_toString_id :
    ∀ id : Nat, id ∈ bangumiList.map (fun b => b.id) →
      parseInt (toString id) = some (id : Int) := by
  decide

theorem toggleFound_eq_map (id : Nat) (l : List Bangumi)
    (hn : (l.map (fun b => b.id)).Nodup) (hid : id ∈ l.map (fun b => b.id)) :
    toggleFound (some (id : Int)) l = some (l.map (negateIfId id)) := by
  induction l with
  | nil => simp at hid
  | cons b rest ih =>
    simp only [List.map_cons, List.nodup_cons, List.mem_cons] at hn hid
    by_cases hb : b.id = id
    · have hrest : rest.map (negateIfId id) = rest := by
        have : ∀ x ∈ rest, negateIfId id x = x := by
          intro x hx
          have hne : x.id ≠ id := by
            intro hxid
            apply hn.1
            rw [hb, ← hxid]
            exact List.mem_map_of_mem (fun b => b.id) hx
          simp [negateIfId, hne]
        calc rest.map (negateIfId id) = rest.map (fun x => x) := List.map_congr_left this
          _ = rest := List.map_id' rest
      simp [toggleFound, hb, negateIfId, hrest]
    · have hid' : id ∈ rest.map (fun b => b.id) := by
        rcases hid with h | h
        · exact absurd h.symm hb
        · exact h
      have hb' : ¬ ((id : Int) = (b.id : Int)) := by
        intro h
        exact hb (Int.ofNat_inj.mp h).symm
      simp [toggleFound, hb', ih hn.2 hid', negateIfId, hb]

theorem map_id_negateIfId (id : Nat) (l : List Bangumi) :
    (l.map (negateIfId id)).map (fun b => b.id) = l.map (fun b => b.id) := by
  rw [List.map_map]
  apply List.map_congr_left
  intro b _
  simp only [Function.comp, negateIfId]
  split <;> rfl

theorem negateIfId_negateIfId (id : Nat) (l : List Bangumi) :
    (l.map (negateIfId id)).map (negateIfId id) = l := by
  rw [List.map_map]
  calc l.map (negateIfId id ∘ negateIfId id) = l.map (fun x => x) := by
        apply List.map_congr_left
        intro b _
        cases b with
        | mk i t c f => by_cases hb : i = id <;> simp [negateIfId, hb]
    _ = l := List.map_id' l

/-- C15: let the objects of the list carry the ids of `bangumiList`, in order
(the script never changes an id), and let `id` be one of them.  A click on the
favourite button of the card for `id` negates `isFavorited` of the entry with
that id, of which there is exactly one, leaves every other entry and the fields
`id`, `title` and `cover` of every entry as they are, keeps length and order,
and renders the list; a second click on the same button gives back the
original list. -/
theorem favorite_toggle (s : DemoState) (id : Nat)
    (h : s.bangumiList.map (fun b => b.id) = bangumiList.map (fun b => b.id))
    (hid : id ∈ bangumiList.map (fun b => b.id)) :
    waterfallClick (ClickTarget.favoriteBtn (toString id)) s
      = some (renderBangumiList { s with bangumiList := s.bangumiList.map (negateIfId id) }) ∧
    (s.bangumiList.map (fun b => b.id)).count id = 1 ∧
    (s.bangumiList.map (negateIfId id)).length = s.bangumiList.length ∧
    (∀ i : Nat, ∀ b : Bangumi, s.bangumiList[i]? = some b →
      (s.bangumiList.map (negateIfId id))[i]?
        = some { id := b.id, title := b.title, cover := b.cover,
                 isFavorited := if b.id = id then !b.isFavorited else b.isFavorited }) ∧
    ((waterfallClick (ClickTarget.favoriteBtn (toString id)) s).bind
        (waterfallClick (ClickTarget.favoriteBtn (toString id)))).map
        (fun s' => s'.bangumiList) = some s.bangumiList := by
  have hparse := parseInt_toString_id id hid
  have hn : (s.bangumiList.map (fun b => b.id)).Nodup := by
    rw [h]
    decide
  have hid' : id ∈ s.bangumiList.map (fun b => b.id) := by
    rw [h]
    exact hid
  have hclick : ∀ t : DemoState, t.bangumiList.map (fun b => b.id)
        = bangumiList.map (fun b => b.id) →
      waterfallClick (ClickTarget.favoriteBtn (toString id)) t
        = some (renderBangumiList { t with bangumiList := t.bangumiList.map (negateIfId id) }) := by
    intro t ht
    have htn : (t.bangumiList.map (fun b => b.id)).Nodup := by
      rw [ht]
      decide
    have htid : id ∈ t.bangumiList.map (fun b => b.id) := by
      rw [ht]
      exact hid
    simp only [waterfallClick, hparse, toggleFound_eq_map id t.bangumiList htn htid]
  refine ⟨hclick s h, ?_, by simp, ?_, ?_⟩
  · have hcount : ∀ n : Nat, n ∈ bangumiList.map (fun b => b.id) →
        (bangumiList.map (fun b => b.id)).count n = 1 := by
      decide
    rw [h]
    exact hcount id hid
  · intro i b hb
    simp only [List.getElem?_map, hb, Option.map_some', negateIfId]
    by_cases hbid : b.id = id <;> simp [hbid]
  · rw [hclick s h]
    simp only [Option.some_bind]
    rw [hclick]
    · simp only [Option.map_some', renderBangumiList]
      rw [negateIfId_negateIfId]
    · simp only [renderBangumiList]
      rw [map_id_negateIfId]
      exact h

/-- Witness for C15: the favourite button of the second card in the initial
list. -/
theorem favorite_toggle_witness :
    (initialState.bangumiList.map (fun b => b.id) = bangumiList.map (fun b => b.id) ∧
      2 ∈ bangumiList.map (fun b => b.id)) ∧
    (waterfallClick (ClickTarget.favoriteBtn (toString 2)) initialState).map
        (fun s' => s'.bangumiList.map (fun b => b.isFavorited))
      = some [false, false, false, false, true, false, true, false, false, true, false, false] :=
  ⟨⟨by decide, by decide⟩,
   by
    rw [(favorite_toggle initialState 2 (by decide) (by decide)).1]
    decide⟩

end Demo

end Bangumoe
